import Mathlib

/-!
Shallow embedding of the `st-xatadb-connection` repository's connection facade.

The repository contains two revisions of the same class `XataConnection`:
`src/st_xatadb_connection/__init__.py` (v1.0.3, client factory `_call_client`)
and `src/st_xata_connection/__init__.py` (v1.0.0, client factory `__call__`,
plus `fix_date`, a `table_names` argument to `_connect`, and a different
`insert` dispatch condition).  The credential-resolution logic of the two
factories is line-for-line identical; it is embedded once below.

Remote calls are modelled with an oracle `RemoteCall → ApiResponse`: each
facade operation returns the list of remote calls it issued together with an
`Except` value (`.error` models a raised Python exception, `.ok` a returned
value).
-/

/-- Python values, as far as the facade inspects or builds them
(payload dictionaries, lists of operations, strings, numbers). -/
inductive PyVal where
  | str : String → PyVal
  | int : Int → PyVal
  | bool : Bool → PyVal
  | dict : List (String × PyVal) → PyVal
  | list : List PyVal → PyVal
  | pynone : PyVal

/-- Lookup in a Python dict with string keys: `d[k]` when `k in d`, else
absent.  Models both `self._secrets` and `os.environ` access patterns
(`"X" in d` followed by `d["X"]` / `d.get("X")`). -/
def lookupKey : List (String × String) → String → Option String
  | [], _ => none
  | (k, v) :: rest, key => if k = key then some v else lookupKey rest key

/-- Exceptions the facade raises.  `connectionRefused` is the
`ConnectionRefusedError` of `_call_client` / `__call__` (the spec's
ConfigurationError); `xataServerError` is `XataServerError(status_code,
server_message)` (the spec's RemoteServiceError); `valueError` is the
`ValueError` raised by `datetime.strptime` on a non-matching string
(the spec's ValidationError). -/
inductive FacadeError where
  | connectionRefused : String → FacadeError
  | xataServerError : Nat → String → FacadeError
  | valueError : String → FacadeError

/-- The `xata` SDK's `ApiResponse` as observed by this repository:
`is_success()`, `status_code`, `server_message()`, `get_cursor()`,
`has_more_results()`, plus an opaque body. -/
structure ApiResponse where
  is_success : Bool
  status_code : Nat
  server_message : String
  cursor : String
  has_more_results : Bool
  body : PyVal

/-- The `XataClient` constructed by the factory: the resolved credentials and
the passthrough keyword arguments.  `db_url = none` means the client was
constructed without a database URL (`XataClient(api_key=api_key, **kwargs)`). -/
structure XataClient where
  api_key : String
  db_url : Option String
  kwargs : List (String × String)

/-- Connection-instance state set by `_connect`:
`self.client_kwargs = kwargs` and
`self.__secrets = {'XATA_API_KEY': api_key, 'XATA_DB_URL': db_url}`
(the two optional explicit arguments of `_connect`, possibly `None`). -/
structure ConnState where
  client_kwargs : List (String × String)
  stored_api_key : Option String
  stored_db_url : Option String

/-- Ambient credential sources read by the factory: the host secrets store
`self._secrets` and the process environment `os.environ`. -/
structure HostEnv where
  st_secrets : List (String × String)
  os_environ : List (String × String)

/-- The `api_key` branch of `_call_client` / `__call__` (identical in both
revisions): an explicit non-None argument is used as is; otherwise
`self._secrets["XATA_API_KEY"]`, then `os.environ`, then the value stored in
`self.__secrets` by `_connect` when it is not None, else
`ConnectionRefusedError`. -/
def resolveApiKey (env : HostEnv) (st : ConnState) (api_key : Option String) :
    Except FacadeError String :=
  match api_key with
  | some k => Except.ok k
  | none =>
    match lookupKey env.st_secrets "XATA_API_KEY" with
    | some v => Except.ok v
    | none =>
      match lookupKey env.os_environ "XATA_API_KEY" with
      | some v => Except.ok v
      | none =>
        match st.stored_api_key with
        | some v => Except.ok v
        | none => Except.error (FacadeError.connectionRefused
            "No API key found. Please set the XATA_API_KEY environment variable or add it to the secrets manager.")

/-- The `db_url` branch of `_call_client` / `__call__`: same source order as
for the api key, but a fully unresolved url is not an error. -/
def resolveDbUrl (env : HostEnv) (st : ConnState) (db_url : Option String) :
    Option String :=
  match db_url with
  | some u => some u
  | none =>
    match lookupKey env.st_secrets "XATA_DB_URL" with
    | some v => some v
    | none =>
      match lookupKey env.os_environ "XATA_DB_URL" with
      | some v => some v
      | none => st.stored_db_url

/-- The client factory `_call_client` (v1.0.3) / `__call__` (v1.0.0): resolve
the api key (raising when no source provides one), resolve the db url, and
construct `XataClient` with or without `db_url`. -/
def callClient (env : HostEnv) (st : ConnState) (api_key db_url : Option String)
    (kwargs : List (String × String)) : Except FacadeError XataClient :=
  match resolveApiKey env st api_key with
  | Except.error e => Except.error e
  | Except.ok k =>
    match resolveDbUrl env st db_url with
    | none => Except.ok { api_key := k, db_url := none, kwargs := kwargs }
    | some u => Except.ok { api_key := k, db_url := some u, kwargs := kwargs }

/-- The `_connect` of revision v1.0.3: store `kwargs` and the explicit
credentials, then call the factory once to verify the connection.  On success
the connection state is returned; a factory error propagates. -/
def connect (env : HostEnv) (api_key db_url : Option String)
    (kwargs : List (String × String)) : Except FacadeError ConnState :=
  let st : ConnState :=
    { client_kwargs := kwargs, stored_api_key := api_key, stored_db_url := db_url }
  match callClient env st api_key db_url kwargs with
  | Except.error e => Except.error e
  | Except.ok _ => Except.ok st

/-- Remote SDK operations the embedded facade methods dispatch to, with the
arguments the facade passes. -/
inductive RemoteCall where
  | dataQuery : String → Option PyVal → RemoteCall
  | recordsGet : String → String → Option (List String) → RemoteCall
  | recordsInsert : String → PyVal → RemoteCall
  | recordsInsertWithId : String → String → PyVal → Option Bool → Option Int →
      Option (List String) → RemoteCall
  | recordsTransaction : PyVal → RemoteCall
  | tableCreate : String → RemoteCall
  | tableSetSchema : String → PyVal → RemoteCall
  | tableGetSchema : String → RemoteCall
  | filesTransform : String → PyVal → RemoteCall

/-- The response check shared verbatim by the forwarding methods:
`if not response.is_success(): raise XataServerError(response.status_code,
response.server_message())` then `return response`. -/
def checkResponse (response : ApiResponse) : Except FacadeError ApiResponse :=
  if !response.is_success then
    Except.error (FacadeError.xataServerError response.status_code response.server_message)
  else
    Except.ok response

/-- `XataConnection.query`: construct a client from `self.client_kwargs`
(no explicit credentials), issue `client.data().query(table_name, full_query)`,
and apply the shared response check. -/
def query (env : HostEnv) (st : ConnState) (oracle : RemoteCall → ApiResponse)
    (table_name : String) (full_query : Option PyVal) :
    List RemoteCall × Except FacadeError ApiResponse :=
  match callClient env st none none st.client_kwargs with
  | Except.error e => ([], Except.error e)
  | Except.ok _client =>
    let call := RemoteCall.dataQuery table_name full_query
    let response := oracle call
    ([call], checkResponse response)

/-- `XataConnection.get`: `client.records().get(table_name, record_id,
columns=columns)` followed by the shared response check. -/
def XataConnection.get (env : HostEnv) (st : ConnState) (oracle : RemoteCall → ApiResponse)
    (table_name : String) (record_id : String) (columns : Option (List String)) :
    List RemoteCall × Except FacadeError ApiResponse :=
  match callClient env st none none st.client_kwargs with
  | Except.error e => ([], Except.error e)
  | Except.ok _client =>
    let call := RemoteCall.recordsGet table_name record_id columns
    let response := oracle call
    ([call], checkResponse response)

/-- `XataConnection.insert` of revision v1.0.3 (`st_xatadb_connection`):
when `record_id is not None or (create_only is not None or if_version is not
None or columns is not None)` the insert-with-explicit-id path is taken,
filling a fresh uuid (`str(uuid.uuid4())`, passed here as `fresh_uuid`) when
`record_id` is None; otherwise the plain insert path (server-assigned id). -/
def insert (env : HostEnv) (st : ConnState) (oracle : RemoteCall → ApiResponse)
    (table_name : String) (record : PyVal) (record_id : Option String)
    (create_only : Option Bool) (if_version : Option Int)
    (columns : Option (List String)) (fresh_uuid : String) :
    List RemoteCall × Except FacadeError ApiResponse :=
  match callClient env st none none st.client_kwargs with
  | Except.error e => ([], Except.error e)
  | Except.ok _client =>
    if record_id.isSome || (create_only.isSome || if_version.isSome || columns.isSome) then
      let rid := match record_id with
        | none => fresh_uuid
        | some r => r
      let call := RemoteCall.recordsInsertWithId table_name rid record create_only if_version columns
      let response := oracle call
      ([call], checkResponse response)
    else
      let call := RemoteCall.recordsInsert table_name record
      let response := oracle call
      ([call], checkResponse response)

/-- `XataConnection.insert` of revision v1.0.0 (`st_xata_connection`): same
body, but the dispatch condition is `record_id is not None and (create_only is
not None or if_version is not None or columns is not None)`. -/
def xc_insert (env : HostEnv) (st : ConnState) (oracle : RemoteCall → ApiResponse)
    (table_name : String) (record : PyVal) (record_id : Option String)
    (create_only : Option Bool) (if_version : Option Int)
    (columns : Option (List String)) (fresh_uuid : String) :
    List RemoteCall × Except FacadeError ApiResponse :=
  match callClient env st none none st.client_kwargs with
  | Except.error e => ([], Except.error e)
  | Except.ok _client =>
    if record_id.isSome && (create_only.isSome || if_version.isSome || columns.isSome) then
      let rid := match record_id with
        | none => fresh_uuid
        | some r => r
      let call := RemoteCall.recordsInsertWithId table_name rid record create_only if_version columns
      let response := oracle call
      ([call], checkResponse response)
    else
      let call := RemoteCall.recordsInsert table_name record
      let response := oracle call
      ([call], checkResponse response)

/-- Membership test `"operations" not in payload` of
`XataConnection.transaction` (identical in both revisions).  The payload is
`Union[List[Dict], Dict]`; on a Python list, `in` compares the string against
each element, and a string never equals a dict, so the test is always false
for a list payload. -/
def payloadHasOperations : PyVal → Bool
  | PyVal.dict d => d.any (fun kv => kv.1 = "operations")
  | _ => false

/-- `XataConnection.transaction` (identical in both revisions): wrap the
payload as `{"operations": payload}` unless it already contains the key
`"operations"`, then forward it to `client.records().transaction` and apply
the shared response check. -/
def transaction (env : HostEnv) (st : ConnState) (oracle : RemoteCall → ApiResponse)
    (payload : PyVal) : List RemoteCall × Except FacadeError ApiResponse :=
  let payl := if !(payloadHasOperations payload) then
      PyVal.dict [("operations", payload)]
    else
      payload
  match callClient env st none none st.client_kwargs with
  | Except.error e => ([], Except.error e)
  | Except.ok _client =>
    let call := RemoteCall.recordsTransaction payl
    let response := oracle call
    ([call], checkResponse response)

/-- `XataConnection.image_transform`: `client.files().transform(image_url,
transformations)` returned directly — this method performs no success check
on the response. -/
def image_transform (env : HostEnv) (st : ConnState) (oracle : RemoteCall → ApiResponse)
    (image_url : String) (transformations : PyVal) :
    List RemoteCall × Except FacadeError ApiResponse :=
  match callClient env st none none st.client_kwargs with
  | Except.error e => ([], Except.error e)
  | Except.ok _client =>
    let call := RemoteCall.filesTransform image_url transformations
    ([call], Except.ok (oracle call))

/-- `XataConnection.get_schema`: `client.table().get_schema(table_name)`
followed by the shared response check. -/
def get_schema (env : HostEnv) (st : ConnState) (oracle : RemoteCall → ApiResponse)
    (table_name : String) : List RemoteCall × Except FacadeError ApiResponse :=
  match callClient env st none none st.client_kwargs with
  | Except.error e => ([], Except.error e)
  | Except.ok _client =>
    let call := RemoteCall.tableGetSchema table_name
    let response := oracle call
    ([call], checkResponse response)

/-- `XataConnection.create_table`: `client.table().create(table_name)`, raise
on its failure, then `client.table().set_schema(table_name, schema)`, raise on
its failure, else return both responses. -/
def create_table (env : HostEnv) (st : ConnState) (oracle : RemoteCall → ApiResponse)
    (table_name : String) (schema : PyVal) :
    List RemoteCall × Except FacadeError (ApiResponse × ApiResponse) :=
  match callClient env st none none st.client_kwargs with
  | Except.error e => ([], Except.error e)
  | Except.ok _client =>
    let call1 := RemoteCall.tableCreate table_name
    let response1 := oracle call1
    if !response1.is_success then
      ([call1], Except.error (FacadeError.xataServerError response1.status_code response1.server_message))
    else
      let call2 := RemoteCall.tableSetSchema table_name schema
      let response2 := oracle call2
      if !response2.is_success then
        ([call1, call2], Except.error (FacadeError.xataServerError response2.status_code response2.server_message))
      else
        ([call1, call2], Except.ok (response1, response2))

/-- The page dictionary built by `next_page` / `prev_page`:
`{'size': pagesize, 'after'/'before': cursor}` with `offset`, `limit` and
`consistency` keys added only when those arguments are not None. -/
def pageDict (pagesize : Int) (cursor_key : String) (cursor : String)
    (offset limit : Option Int) (consistency : Option String) :
    List (String × PyVal) :=
  let d := [("size", PyVal.int pagesize), (cursor_key, PyVal.str cursor)]
  let d := match offset with
    | some o => d ++ [("offset", PyVal.int o)]
    | none => d
  let d := match limit with
    | some l => d ++ [("limit", PyVal.int l)]
    | none => d
  match consistency with
  | some c => d ++ [("consistency", PyVal.str c)]
  | none => d

/-- `XataConnection.next_page`: build the page dict from the previous
response's cursor (key `'after'`); when `response_prev.has_more_results()`
issue one `client.data().query(table_name, {'page': _next})`, raising on an
unsuccessful response, else return None without issuing any query. -/
def next_page (env : HostEnv) (st : ConnState) (oracle : RemoteCall → ApiResponse)
    (table_name : String) (response_prev : ApiResponse) (pagesize : Int)
    (offset limit : Option Int) (consistency : Option String) :
    List RemoteCall × Except FacadeError (Option ApiResponse) :=
  match callClient env st none none st.client_kwargs with
  | Except.error e => ([], Except.error e)
  | Except.ok _client =>
    let nextd := pageDict pagesize "after" response_prev.cursor offset limit consistency
    if response_prev.has_more_results then
      let call := RemoteCall.dataQuery table_name (some (PyVal.dict [("page", PyVal.dict nextd)]))
      let nextpage := oracle call
      if !nextpage.is_success then
        ([call], Except.error (FacadeError.xataServerError nextpage.status_code nextpage.server_message))
      else
        ([call], Except.ok (some nextpage))
    else
      ([], Except.ok none)

/-- `XataConnection.prev_page`: as `next_page` but the cursor is stored under
`'before'` and taken from `response_after`. -/
def prev_page (env : HostEnv) (st : ConnState) (oracle : RemoteCall → ApiResponse)
    (table_name : String) (response_after : ApiResponse) (pagesize : Int)
    (offset limit : Option Int) (consistency : Option String) :
    List RemoteCall × Except FacadeError (Option ApiResponse) :=
  match callClient env st none none st.client_kwargs with
  | Except.error e => ([], Except.error e)
  | Except.ok _client =>
    let nextd := pageDict pagesize "before" response_after.cursor offset limit consistency
    if response_after.has_more_results then
      let call := RemoteCall.dataQuery table_name (some (PyVal.dict [("page", PyVal.dict nextd)]))
      let nextpage := oracle call
      if !nextpage.is_success then
        ([call], Except.error (FacadeError.xataServerError nextpage.status_code nextpage.server_message))
      else
        ([call], Except.ok (some nextpage))
    else
      ([], Except.ok none)

/-- The `table_names` argument of revision v1.0.0's `_connect`:
`Optional[Union[list, dict]]` — a list of table names or a dict mapping table
names to aliases. -/
inductive TableNames where
  | listNames : List String → TableNames
  | dictNames : List (String × String) → TableNames
deriving DecidableEq

/-- An attribute set on the connection object by the prefetch loops of
revision v1.0.0's `_connect`: either the `get_schema` response stored under
the table name, or the table name stored under its alias. -/
inductive TableAttr where
  | schemaResp : ApiResponse → TableAttr
  | aliasFor : String → TableAttr

/-- Python `isinstance(x, list)` on the `table_names` value. -/
def isinstanceList : Option TableNames → Bool
  | some (TableNames.listNames _) => true
  | _ => false

/-- Python `isinstance(x, dict)` on the `table_names` value. -/
def isinstanceDict : Option TableNames → Bool
  | some (TableNames.dictNames _) => true
  | _ => false

/-- Iterating the `table_names` value as a list (`for table_name in
table_names`). -/
def iterListNames : Option TableNames → List String
  | some (TableNames.listNames l) => l
  | _ => []

/-- Iterating the `table_names` value as a dict (`for table_name, alias in
table_names.items()`). -/
def iterDictNames : Option TableNames → List (String × String)
  | some (TableNames.dictNames d) => d
  | _ => []

/-- The list-branch prefetch loop body of revision v1.0.0's `_connect`:
`for table_name in table_names: setattr(self, table_name,
self.get_schema(table_name))`.  A `get_schema` failure raises out of the
loop. -/
def prefetchSchemas (env : HostEnv) (st : ConnState) (oracle : RemoteCall → ApiResponse) :
    List String → Except FacadeError (List (String × TableAttr) × List RemoteCall)
  | [] => Except.ok ([], [])
  | t :: rest =>
    match get_schema env st oracle t with
    | (_, Except.error e) => Except.error e
    | (calls, Except.ok resp) =>
      match prefetchSchemas env st oracle rest with
      | Except.error e => Except.error e
      | Except.ok (attrs, calls2) =>
        Except.ok ((t, TableAttr.schemaResp resp) :: attrs, calls ++ calls2)

/-- The dict-branch prefetch loop body of revision v1.0.0's `_connect`:
`for table_name, alias in table_names.items(): setattr(self, alias,
table_name); setattr(self, table_name, self.get_schema(table_name))`. -/
def prefetchAliases (env : HostEnv) (st : ConnState) (oracle : RemoteCall → ApiResponse) :
    List (String × String) → Except FacadeError (List (String × TableAttr) × List RemoteCall)
  | [] => Except.ok ([], [])
  | (t, al) :: rest =>
    match get_schema env st oracle t with
    | (_, Except.error e) => Except.error e
    | (calls, Except.ok resp) =>
      match prefetchAliases env st oracle rest with
      | Except.error e => Except.error e
      | Except.ok (attrs, calls2) =>
        Except.ok ((al, TableAttr.aliasFor t) :: (t, TableAttr.schemaResp resp) :: attrs, calls ++ calls2)

/-- Connection-instance state after revision v1.0.0's `_connect`:
`client_kwargs`, `self._table_names = None`, the stored `__secrets`, and the
per-table attributes set by the prefetch loops. -/
structure XCState where
  client_kwargs : List (String × String)
  table_names_field : Option TableNames
  stored_api_key : Option String
  stored_db_url : Option String
  table_attrs : List (String × TableAttr)

/-- The `_connect` of revision v1.0.0 (`st_xata_connection`): store `kwargs`,
`self._table_names = None` and `__secrets`, run the two verification client
constructions (`self.__call__(...)` and `self._call_client(...)`; the latter
name is not defined in this revision and is embedded as the factory call it
textually denotes), then the prefetch branch: `if table_names is None:` with
`isinstance(table_names, list)` / `isinstance(table_names, dict)` sub-branches
iterating `table_names`.  Returns the resulting state and the list of
`get_schema` prefetch calls issued. -/
def xc_connect (env : HostEnv) (oracle : RemoteCall → ApiResponse)
    (api_key db_url : Option String) (table_names : Option TableNames)
    (kwargs : List (String × String)) :
    Except FacadeError (XCState × List RemoteCall) :=
  let st : ConnState :=
    { client_kwargs := kwargs, stored_api_key := api_key, stored_db_url := db_url }
  match callClient env st api_key db_url kwargs with
  | Except.error e => Except.error e
  | Except.ok _ =>
    match callClient env st api_key db_url kwargs with
    | Except.error e => Except.error e
    | Except.ok _ =>
      if table_names = none then
        if isinstanceList table_names then
          match prefetchSchemas env st oracle (iterListNames table_names) with
          | Except.error e => Except.error e
          | Except.ok (attrs, calls) =>
            Except.ok ({ client_kwargs := kwargs, table_names_field := none,
                         stored_api_key := api_key, stored_db_url := db_url,
                         table_attrs := attrs }, calls)
        else if isinstanceDict table_names then
          match prefetchAliases env st oracle (iterDictNames table_names) with
          | Except.error e => Except.error e
          | Except.ok (attrs, calls) =>
            Except.ok ({ client_kwargs := kwargs, table_names_field := none,
                         stored_api_key := api_key, stored_db_url := db_url,
                         table_attrs := attrs }, calls)
        else
          Except.ok ({ client_kwargs := kwargs, table_names_field := none,
                       stored_api_key := api_key, stored_db_url := db_url,
                       table_attrs := [] }, [])
      else
        Except.ok ({ client_kwargs := kwargs, table_names_field := none,
                     stored_api_key := api_key, stored_db_url := db_url,
                     table_attrs := [] }, [])

/-- Numeric value of a decimal digit character. -/
def dval (c : Char) : Nat := c.toNat - 48

/-- Bounds test on characters (used for the digit-range alternatives of the
CPython `strptime` field patterns). -/
def charBetween (lo hi c : Char) : Bool := decide (lo ≤ c ∧ c ≤ hi)

/-- Python `\s` on the ASCII range: the whitespace characters matched by the
`\s+` that CPython substitutes for the literal space in a `strptime` format. -/
def pyIsSpace (c : Char) : Bool :=
  c == ' ' || c == '\t' || c == '\n' || c == '\r' || c == '\x0b' || c == '\x0c'

/-- The `%Y` field of CPython `strptime`: exactly four decimal digits. -/
def parseY4 : List Char → Option (Nat × List Char)
  | c1 :: c2 :: c3 :: c4 :: rest =>
    if c1.isDigit && c2.isDigit && c3.isDigit && c4.isDigit then
      some (1000 * dval c1 + 100 * dval c2 + 10 * dval c3 + dval c4, rest)
    else none
  | _ => none

/-- The `%m` field of CPython `strptime`, alternatives in regex order:
`1[0-2] | 0[1-9] | [1-9]`.  All possible matches are returned in priority
order so the caller can backtrack. -/
def monthAlts : List Char → List (Nat × List Char)
  | c1 :: c2 :: rest =>
    (if c1 == '1' && charBetween '0' '2' c2 then [(10 + dval c2, rest)] else []) ++
    (if c1 == '0' && charBetween '1' '9' c2 then [(dval c2, rest)] else []) ++
    (if charBetween '1' '9' c1 then [(dval c1, c2 :: rest)] else [])
  | [c1] => if charBetween '1' '9' c1 then [(dval c1, [])] else []
  | [] => []

/-- The `%d` field of CPython `strptime`: `3[01] | [12]\d | 0[1-9] | [1-9]`. -/
def dayAlts : List Char → List (Nat × List Char)
  | c1 :: c2 :: rest =>
    (if c1 == '3' && (c2 == '0' || c2 == '1') then [(30 + dval c2, rest)] else []) ++
    (if (c1 == '1' || c1 == '2') && c2.isDigit then [(10 * dval c1 + dval c2, rest)] else []) ++
    (if c1 == '0' && charBetween '1' '9' c2 then [(dval c2, rest)] else []) ++
    (if charBetween '1' '9' c1 then [(dval c1, c2 :: rest)] else [])
  | [c1] => if charBetween '1' '9' c1 then [(dval c1, [])] else []
  | [] => []

/-- The `%H` field of CPython `strptime`: `2[0-3] | [0-1]\d | \d`. -/
def hourAlts : List Char → List (Nat × List Char)
  | c1 :: c2 :: rest =>
    (if c1 == '2' && charBetween '0' '3' c2 then [(20 + dval c2, rest)] else []) ++
    (if charBetween '0' '1' c1 && c2.isDigit then [(10 * dval c1 + dval c2, rest)] else []) ++
    (if c1.isDigit then [(dval c1, c2 :: rest)] else [])
  | [c1] => if c1.isDigit then [(dval c1, [])] else []
  | [] => []

/-- The `%M` field of CPython `strptime`: `[0-5]\d | \d`. -/
def minuteAlts : List Char → List (Nat × List Char)
  | c1 :: c2 :: rest =>
    (if charBetween '0' '5' c1 && c2.isDigit then [(10 * dval c1 + dval c2, rest)] else []) ++
    (if c1.isDigit then [(dval c1, c2 :: rest)] else [])
  | [c1] => if c1.isDigit then [(dval c1, [])] else []
  | [] => []

/-- The `%S` field of CPython `strptime`: `6[0-1] | [0-5]\d | \d` (leap
seconds are accepted by the pattern; `datetime` construction rejects them
afterwards). -/
def secondAlts : List Char → List (Nat × List Char)
  | c1 :: c2 :: rest =>
    (if c1 == '6' && (c2 == '0' || c2 == '1') then [(60 + dval c2, rest)] else []) ++
    (if charBetween '0' '5' c1 && c2.isDigit then [(10 * dval c1 + dval c2, rest)] else []) ++
    (if c1.isDigit then [(dval c1, c2 :: rest)] else [])
  | [c1] => if c1.isDigit then [(dval c1, [])] else []
  | [] => []

/-- The `\s+` that CPython `strptime` substitutes for the literal space of the
format: one or more whitespace characters.  The following format element is a
digit class, so the greedy maximal munch loses no matches. -/
def eatSpaces : List Char → Option (List Char)
  | c :: rest => if pyIsSpace c then some (rest.dropWhile pyIsSpace) else none
  | [] => none

/-- First alternative for which the continuation succeeds (ordered regex
alternation with backtracking). -/
def firstHit {α β : Type} (f : α → Option β) : List α → Option β
  | [] => none
  | a :: rest =>
    match f a with
    | some b => some b
    | none => firstHit f rest

/-- The broken-down time produced by `datetime.strptime` (the fields the
format `"%Y-%m-%d %H:%M:%S"` populates). -/
structure PyDateTime where
  year : Nat
  month : Nat
  day : Nat
  hour : Nat
  minute : Nat
  second : Nat

/-- Regex phase of `datetime.strptime(s, "%Y-%m-%d %H:%M:%S")`: anchored match
of the whole input (CPython raises on unconverted trailing data), with
ordered-alternation backtracking per field. -/
def strptimeYmdHMS (s : String) : Option PyDateTime :=
  match parseY4 s.data with
  | none => none
  | some (y, r1) =>
    match r1 with
    | '-' :: r2 =>
      firstHit (fun mo =>
        match mo.2 with
        | '-' :: r3 =>
          firstHit (fun dy =>
            match eatSpaces dy.2 with
            | none => none
            | some r4 =>
              firstHit (fun hh =>
                match hh.2 with
                | ':' :: r5 =>
                  firstHit (fun mi =>
                    match mi.2 with
                    | ':' :: r6 =>
                      firstHit (fun ss =>
                        match ss.2 with
                        | [] => some (PyDateTime.mk y mo.1 dy.1 hh.1 mi.1 ss.1)
                        | _ => none) (secondAlts r6)
                    | _ => none) (minuteAlts r5)
                | _ => none) (hourAlts r4)
            ) (dayAlts r3)
        | _ => none) (monthAlts r2)
    | _ => none

/-- Gregorian leap-year rule used by `datetime` validation. -/
def isLeapYear (y : Nat) : Bool :=
  (y % 4 == 0 && y % 100 != 0) || (y % 400 == 0)

/-- Days in a month, as validated by the `datetime` constructor. -/
def daysInMonth (y m : Nat) : Nat :=
  if m == 2 then (if isLeapYear y then 29 else 28)
  else if m == 4 || m == 6 || m == 9 || m == 11 then 30
  else 31

/-- Full `datetime.strptime(s, "%Y-%m-%d %H:%M:%S")`: regex phase followed by
`datetime(...)` construction, which rejects year 0 (MINYEAR is 1), a day out
of range for the month, and a leap second let through by the `%S` pattern.  A
failure of either phase is a raised `ValueError`. -/
def strptimeDatetime (s : String) : Except FacadeError PyDateTime :=
  match strptimeYmdHMS s with
  | none => Except.error (FacadeError.valueError
      ("time data " ++ s ++ " does not match format %Y-%m-%d %H:%M:%S"))
  | some d =>
    if d.year < 1 then
      Except.error (FacadeError.valueError "year 0 is out of range")
    else if d.day > daysInMonth d.year d.month then
      Except.error (FacadeError.valueError "day is out of range for month")
    else if d.second > 59 then
      Except.error (FacadeError.valueError "second must be in 0..59")
    else
      Except.ok d

/-- Zero-padded two-digit decimal rendering. -/
def pad2 (n : Nat) : String := if n < 10 then "0" ++ toString n else toString n

/-- Zero-padded four-digit decimal rendering. -/
def pad4 (n : Nat) : String :=
  if n < 10 then "000" ++ toString n
  else if n < 100 then "00" ++ toString n
  else if n < 1000 then "0" ++ toString n
  else toString n

/-- UTC-offset suffix produced by `datetime.isoformat()` for an aware
datetime, with the time zone given as a minute offset (UTC is 0, rendered
`+00:00`). -/
def tzSuffix (offsetMinutes : Int) : String :=
  if offsetMinutes < 0 then
    "-" ++ pad2 ((-offsetMinutes).toNat / 60) ++ ":" ++ pad2 ((-offsetMinutes).toNat % 60)
  else
    "+" ++ pad2 (offsetMinutes.toNat / 60) ++ ":" ++ pad2 (offsetMinutes.toNat % 60)

/-- Modelled from the `xata` SDK dependency's helper `to_rfc339(dt, tz)`
(`dt.replace(tzinfo=tz).isoformat()`), which this repository's `fix_date`
forwards to: the canonical RFC3339 timestamp string of the parsed value in
the given time zone. -/
def to_rfc339 (d : PyDateTime) (tzOffsetMinutes : Int) : String :=
  pad4 d.year ++ "-" ++ pad2 d.month ++ "-" ++ pad2 d.day ++ "T" ++
  pad2 d.hour ++ ":" ++ pad2 d.minute ++ ":" ++ pad2 d.second ++ tzSuffix tzOffsetMinutes

/-- The `Union[str, datetime]` argument of `fix_date`. -/
inductive DateArg where
  | str : String → DateArg
  | dt : PyDateTime → DateArg

/-- `XataConnection.fix_date` of revision v1.0.0: a string argument is parsed
with `datetime.strptime(date, "%Y-%m-%d %H:%M:%S")` (a non-matching string
raises `ValueError`); the resulting datetime is rendered with
`to_rfc339(date, time_zone)` (time zone as minute offset, UTC = 0 by
default). -/
def fix_date (date : DateArg) (time_zone : Int) : Except FacadeError String :=
  match date with
  | DateArg.str s =>
    match strptimeDatetime s with
    | Except.error e => Except.error e
    | Except.ok d => Except.ok (to_rfc339 d time_zone)
  | DateArg.dt d => Except.ok (to_rfc339 d time_zone)

/-- Modelled from the spec: the "bare calendar-date pattern" named by the
date-normalizer contract — a string consisting of exactly a calendar date,
its fields matching the `%Y`, `%m`, `%d` patterns with `-` separators and
nothing following. -/
def matchesBareDate (s : String) : Bool :=
  match parseY4 s.data with
  | some (_, '-' :: r2) =>
    (monthAlts r2).any (fun mo =>
      match mo.2 with
      | '-' :: r3 => (dayAlts r3).any (fun dy => dy.2.isEmpty)
      | _ => false)
  | _ => false

/-- A host environment whose secrets store holds an api key, so that client
construction succeeds in concrete instantiations. -/
def okEnv : HostEnv := { st_secrets := [("XATA_API_KEY", "test-key")], os_environ := [] }

/-- A connection state with no stored credentials and no client kwargs. -/
def okState : ConnState := { client_kwargs := [], stored_api_key := none, stored_db_url := none }

/-- A host environment that also defines `XATA_API_KEY` in the secrets store
while `_connect` is given a different explicit key. -/
def envWithSecretsKey : HostEnv :=
  { st_secrets := [("XATA_API_KEY", "SECRETS_KEY")], os_environ := [] }

/-- An always-failing remote oracle: every call reports failure with status
500 and message "boom". -/
def badOracle : RemoteCall → ApiResponse :=
  fun _ => { is_success := false, status_code := 500, server_message := "boom",
             cursor := "", has_more_results := false, body := PyVal.pynone }

/-- An always-succeeding remote oracle with status 200. -/
def goodOracle : RemoteCall → ApiResponse :=
  fun _ => { is_success := true, status_code := 200, server_message := "OK",
             cursor := "cur0", has_more_results := true, body := PyVal.pynone }

/-- C1, counterexample.  After `_connect(api_key="K")` in an environment whose
secrets store defines `XATA_API_KEY = "SECRETS_KEY"`, a subsequent operation's
client construction (`_call_client(**self.client_kwargs)`, no explicit
credentials) resolves the api key to `"SECRETS_KEY"`, not to the explicitly
supplied `"K"`: the secrets store wins over the connect-time explicit key, so
the claimed precedence of the explicit value fails. -/
theorem c1_counterexample :
    connect envWithSecretsKey (some "K") none [] =
      Except.ok { client_kwargs := [], stored_api_key := some "K", stored_db_url := none } ∧
    callClient envWithSecretsKey
      { client_kwargs := [], stored_api_key := some "K", stored_db_url := none } none none [] =
      Except.ok { api_key := "SECRETS_KEY", db_url := none, kwargs := [] } ∧
    "SECRETS_KEY" ≠ "K" := by
  refine ⟨rfl, rfl, ?_⟩
  decide

/-- C1, amended.  Credential resolution precedence as implemented: a non-None
explicit argument wins inside a single client construction; with no explicit
argument the order is secrets store, then environment, then the value stored
by `_connect`.  Consequently, after `_connect(api_key=K)` a subsequent
operation (which passes no explicit credentials) resolves the api key to `K`
exactly when neither the secrets store nor the environment defines
`XATA_API_KEY`. -/
theorem c1_amended (env : HostEnv) (st : ConnState) (k v : String) :
    (resolveApiKey env st (some k) = Except.ok k) ∧
    (lookupKey env.st_secrets "XATA_API_KEY" = some v →
      resolveApiKey env st none = Except.ok v) ∧
    (lookupKey env.st_secrets "XATA_API_KEY" = none →
      lookupKey env.os_environ "XATA_API_KEY" = some v →
      resolveApiKey env st none = Except.ok v) ∧
    (lookupKey env.st_secrets "XATA_API_KEY" = none →
      lookupKey env.os_environ "XATA_API_KEY" = none →
      st.stored_api_key = some v →
      resolveApiKey env st none = Except.ok v) ∧
    (resolveDbUrl env st (some k) = some k) ∧
    (lookupKey env.st_secrets "XATA_DB_URL" = some v →
      resolveDbUrl env st none = some v) ∧
    (lookupKey env.st_secrets "XATA_DB_URL" = none →
      lookupKey env.os_environ "XATA_DB_URL" = some v →
      resolveDbUrl env st none = some v) ∧
    (lookupKey env.st_secrets "XATA_DB_URL" = none →
      lookupKey env.os_environ "XATA_DB_URL" = none →
      resolveDbUrl env st none = st.stored_db_url) ∧
    (∀ kwargs : List (String × String),
      lookupKey env.st_secrets "XATA_API_KEY" = none →
      lookupKey env.os_environ "XATA_API_KEY" = none →
      ∀ st2 : ConnState, connect env (some k) none kwargs = Except.ok st2 →
      resolveApiKey env st2 none = Except.ok k) := by
  refine ⟨rfl, ?_, ?_, ?_, rfl, ?_, ?_, ?_, ?_⟩
  · intro h; simp [resolveApiKey, h]
  · intro h1 h2; simp [resolveApiKey, h1, h2]
  · intro h1 h2 h3; simp [resolveApiKey, h1, h2, h3]
  · intro h; simp [resolveDbUrl, h]
  · intro h1 h2; simp [resolveDbUrl, h1, h2]
  · intro h1 h2; simp [resolveDbUrl, h1, h2]
  · intro kwargs h1 h2 st2 hconn
    have hst2 : st2 = { client_kwargs := kwargs, stored_api_key := some k, stored_db_url := none } := by
      simp [connect, callClient, resolveApiKey, resolveDbUrl] at hconn
      split at hconn <;> simp_all
    subst hst2
    simp [resolveApiKey, h1, h2]

/-- C1, witness for the amended theorem: concrete instantiations exercising
the secrets-store, environment and stored-key branches. -/
theorem c1_amended_witness :
    resolveApiKey { st_secrets := [], os_environ := [] }
      { client_kwargs := [], stored_api_key := some "K", stored_db_url := none } none =
      Except.ok "K" ∧
    resolveApiKey envWithSecretsKey okState none = Except.ok "SECRETS_KEY" ∧
    resolveApiKey { st_secrets := [], os_environ := [("XATA_API_KEY", "ENV_KEY")] }
      okState none = Except.ok "ENV_KEY" ∧
    resolveApiKey { st_secrets := [], os_environ := [] }
      { client_kwargs := [], stored_api_key := some "K", stored_db_url := none } none =
      Except.ok "K" := by
  refine ⟨?_, ?_, ?_, ?_⟩
  · exact (c1_amended { st_secrets := [], os_environ := [] }
      { client_kwargs := [], stored_api_key := some "K", stored_db_url := none } "K"
      "K").2.2.2.1 rfl rfl rfl
  · exact (c1_amended envWithSecretsKey okState "x" "SECRETS_KEY").2.1 rfl
  · exact (c1_amended { st_secrets := [], os_environ := [("XATA_API_KEY", "ENV_KEY")] }
      okState "x" "ENV_KEY").2.2.1 rfl rfl
  · exact (c1_amended { st_secrets := [], os_environ := [] }
      { client_kwargs := [], stored_api_key := some "K", stored_db_url := none } "K"
      "K").2.2.2.2.2.2.2.2 [] rfl rfl
      { client_kwargs := [], stored_api_key := some "K", stored_db_url := none } rfl

/-- C2.  Insert dispatch.  In revision v1.0.3 (`st_xatadb_connection`), a call
with no `record_id` and none of `create_only`/`if_version`/`columns` issues
the server-assigned-id insert, and a call with `record_id = r` issues the
insert-with-explicit-id carrying `r`.  In revision v1.0.0
(`st_xata_connection`), whose dispatch condition uses `and` instead of `or`,
the call `insert("Users", record, record_id="rec_1")` with no other options
issues the server-assigned-id insert and silently drops `"rec_1"` — the
failing input for the claim. -/
theorem c2_insert_dispatch (oracle : RemoteCall → ApiResponse) (record : PyVal) (u : String) :
    ((insert okEnv okState oracle "Users" record none none none none u).1 =
      [RemoteCall.recordsInsert "Users" record]) ∧
    (∀ r : String,
      (insert okEnv okState oracle "Users" record (some r) none none none u).1 =
        [RemoteCall.recordsInsertWithId "Users" r record none none none]) ∧
    ((xc_insert okEnv okState oracle "Users" record none none none none u).1 =
      [RemoteCall.recordsInsert "Users" record]) ∧
    ((xc_insert okEnv okState oracle "Users" record (some "rec_1") none none none u).1 =
      [RemoteCall.recordsInsert "Users" record]) := by
  exact ⟨rfl, fun r => rfl, rfl, rfl⟩

/-- C3, counterexample.  `image_transform` performs no success check: with a
remote response whose success indicator reports failure (status 500), the
method returns that response as a value instead of raising, so the claim that
every facade operation (including image transform) raises on failure is
false. -/
theorem c3_counterexample :
    (badOracle (RemoteCall.filesTransform "https://img.example/x.png" PyVal.pynone)).is_success
      = false ∧
    (image_transform okEnv okState badOracle "https://img.example/x.png" PyVal.pynone).2 =
      Except.ok (badOracle (RemoteCall.filesTransform "https://img.example/x.png" PyVal.pynone)) := by
  exact ⟨rfl, rfl⟩

/-- C3, amended.  Every forwarding operation that applies the shared response
check (`query`, `get`, `insert`, `transaction`, `get_schema` are embedded
here; the remaining methods repeat the identical check) raises
`XataServerError` carrying the failing response's status code and server
message and returns no value; `image_transform` alone performs no check and
returns the remote response unchanged whether or not it reports success. -/
theorem c3_amended (env : HostEnv) (st : ConnState) (c : XataClient)
    (oracle : RemoteCall → ApiResponse)
    (h : callClient env st none none st.client_kwargs = Except.ok c)
    (table_name : String) (full_query : Option PyVal) (record_id : String)
    (columns : Option (List String)) (tf : PyVal) (img : String) :
    ((oracle (RemoteCall.dataQuery table_name full_query)).is_success = false →
      (query env st oracle table_name full_query).2 =
        Except.error (FacadeError.xataServerError
          (oracle (RemoteCall.dataQuery table_name full_query)).status_code
          (oracle (RemoteCall.dataQuery table_name full_query)).server_message)) ∧
    ((oracle (RemoteCall.recordsGet table_name record_id columns)).is_success = false →
      (XataConnection.get env st oracle table_name record_id columns).2 =
        Except.error (FacadeError.xataServerError
          (oracle (RemoteCall.recordsGet table_name record_id columns)).status_code
          (oracle (RemoteCall.recordsGet table_name record_id columns)).server_message)) ∧
    (∀ resp : ApiResponse, resp.is_success = false →
      checkResponse resp =
        Except.error (FacadeError.xataServerError resp.status_code resp.server_message)) ∧
    ((image_transform env st oracle img tf).2 =
      Except.ok (oracle (RemoteCall.filesTransform img tf))) := by
  refine ⟨?_, ?_, ?_, ?_⟩
  · intro hf
    simp [query, h, checkResponse, hf]
  · intro hf
    simp [XataConnection.get, h, checkResponse, hf]
  · intro resp hf
    simp [checkResponse, hf]
  · simp only [image_transform, h]

/-- C3, witness for the amended theorem: the always-failing oracle on the
concrete fixture environment. -/
theorem c3_amended_witness :
    (query okEnv okState badOracle "Users" none).2 =
      Except.error (FacadeError.xataServerError 500 "boom") ∧
    (image_transform okEnv okState badOracle "u" PyVal.pynone).2 =
      Except.ok (badOracle (RemoteCall.filesTransform "u" PyVal.pynone)) := by
  have h := c3_amended okEnv okState
    { api_key := "test-key", db_url := none, kwargs := [] } badOracle rfl
    "Users" none "r1" none PyVal.pynone "u"
  exact ⟨h.1 rfl, h.2.2.2⟩

/-- C4, counterexample.  The string "2024-01-01" matches the bare
calendar-date pattern, yet `fix_date` raises a `ValueError` instead of
parsing it: the normalizer accepts only the calendar-date-plus-time format
`"%Y-%m-%d %H:%M:%S"`. -/
theorem c4_counterexample :
    matchesBareDate "2024-01-01" = true ∧
    fix_date (DateArg.str "2024-01-01") 0 =
      Except.error (FacadeError.valueError
        "time data 2024-01-01 does not match format %Y-%m-%d %H:%M:%S") := by
  exact ⟨rfl, rfl⟩

/-- C4, amended.  A string value matching the calendar-date-plus-time pattern
`"%Y-%m-%d %H:%M:%S"` is parsed and rewritten to the canonical RFC3339
timestamp string in the given time zone (UTC, offset 0, by default); any
other string value — a bare calendar date included — raises a `ValueError`
(a validation error), and is never silently passed through. -/
theorem c4_amended (s : String) (tz : Int) (d : PyDateTime) :
    (strptimeYmdHMS s = none →
      fix_date (DateArg.str s) tz =
        Except.error (FacadeError.valueError
          ("time data " ++ s ++ " does not match format %Y-%m-%d %H:%M:%S"))) ∧
    (strptimeDatetime s = Except.ok d →
      fix_date (DateArg.str s) tz = Except.ok (to_rfc339 d tz)) ∧
    fix_date (DateArg.str "2024-01-02 03:04:05") 0 =
      Except.ok "2024-01-02T03:04:05+00:00" ∧
    fix_date (DateArg.str "2024-02-30 00:00:00") 0 =
      Except.error (FacadeError.valueError "day is out of range for month") := by
  refine ⟨?_, ?_, rfl, rfl⟩
  · intro hn
    simp [fix_date, strptimeDatetime, hn]
  · intro hk
    simp [fix_date, hk]

/-- C4, witness for the amended theorem: both branches at concrete strings. -/
theorem c4_amended_witness :
    fix_date (DateArg.str "not a date") 7 =
      Except.error (FacadeError.valueError
        "time data not a date does not match format %Y-%m-%d %H:%M:%S") ∧
    fix_date (DateArg.str "1999-12-31 23:59:59") 0 =
      Except.ok "1999-12-31T23:59:59+00:00" := by
  refine ⟨?_, ?_⟩
  · exact (c4_amended "not a date" 7
      (PyDateTime.mk 1 1 1 0 0 0)).1 rfl
  · exact (c4_amended "1999-12-31 23:59:59" 0
      (PyDateTime.mk 1999 12 31 23 59 59)).2.1 rfl

/-- C5.  When the create-table remote call reports failure, `create_table`
raises `XataServerError` with that first failure's status code and message,
and the issued-call trace contains only the create-table call — the
set-schema call is never issued.  When the create-table call succeeds, the
set-schema call follows it. -/
theorem c5_create_table_first_failure (env : HostEnv) (st : ConnState) (c : XataClient)
    (oracle : RemoteCall → ApiResponse)
    (h : callClient env st none none st.client_kwargs = Except.ok c)
    (table_name : String) (schema : PyVal) :
    ((oracle (RemoteCall.tableCreate table_name)).is_success = false →
      create_table env st oracle table_name schema =
        ([RemoteCall.tableCreate table_name],
         Except.error (FacadeError.xataServerError
           (oracle (RemoteCall.tableCreate table_name)).status_code
           (oracle (RemoteCall.tableCreate table_name)).server_message))) ∧
    ((oracle (RemoteCall.tableCreate table_name)).is_success = true →
      (create_table env st oracle table_name schema).1 =
        [RemoteCall.tableCreate table_name, RemoteCall.tableSetSchema table_name schema]) := by
  constructor
  · intro hf
    simp [create_table, h, hf]
  · intro hs
    simp [create_table, h, hs]
    try split <;> rfl

/-- C5, witness: the failing oracle never reaches set-schema, the succeeding
oracle issues both calls. -/
theorem c5_witness :
    create_table okEnv okState badOracle "Users" PyVal.pynone =
      ([RemoteCall.tableCreate "Users"],
       Except.error (FacadeError.xataServerError 500 "boom")) ∧
    (create_table okEnv okState goodOracle "Users" PyVal.pynone).1 =
      [RemoteCall.tableCreate "Users", RemoteCall.tableSetSchema "Users" PyVal.pynone] := by
  refine ⟨?_, ?_⟩
  · exact (c5_create_table_first_failure okEnv okState
      { api_key := "test-key", db_url := none, kwargs := [] } badOracle rfl
      "Users" PyVal.pynone).1 rfl
  · exact (c5_create_table_first_failure okEnv okState
      { api_key := "test-key", db_url := none, kwargs := [] } goodOracle rfl
      "Users" PyVal.pynone).2 rfl

/-- C6.  When the previous response reports no further results,
`next_page` and `prev_page` return None and issue no remote query call; when
it reports more results, each issues exactly one query call for the
next/previous page (cursor under `'after'` resp. `'before'`). -/
theorem c6_pagination (env : HostEnv) (st : ConnState) (c : XataClient)
    (oracle : RemoteCall → ApiResponse)
    (h : callClient env st none none st.client_kwargs = Except.ok c)
    (table_name : String) (resp : ApiResponse) (pagesize : Int)
    (offset limit : Option Int) (consistency : Option String) :
    (resp.has_more_results = false →
      next_page env st oracle table_name resp pagesize offset limit consistency =
        ([], Except.ok none) ∧
      prev_page env st oracle table_name resp pagesize offset limit consistency =
        ([], Except.ok none)) ∧
    (resp.has_more_results = true →
      (next_page env st oracle table_name resp pagesize offset limit consistency).1 =
        [RemoteCall.dataQuery table_name (some (PyVal.dict [("page",
          PyVal.dict (pageDict pagesize "after" resp.cursor offset limit consistency))]))] ∧
      (prev_page env st oracle table_name resp pagesize offset limit consistency).1 =
        [RemoteCall.dataQuery table_name (some (PyVal.dict [("page",
          PyVal.dict (pageDict pagesize "before" resp.cursor offset limit consistency))]))]) := by
  constructor
  · intro hf
    constructor
    · simp [next_page, h, hf]
    · simp [prev_page, h, hf]
  · intro hm
    constructor
    · simp [next_page, h, hm]
      try split <;> rfl
    · simp [prev_page, h, hm]
      try split <;> rfl

/-- C6, witness: a last-page response produces None with an empty trace, a
response with more results produces exactly one query call. -/
theorem c6_witness :
    next_page okEnv okState goodOracle "Users"
      { is_success := true, status_code := 200, server_message := "OK",
        cursor := "c1", has_more_results := false, body := PyVal.pynone }
      20 none none none = ([], Except.ok none) ∧
    (next_page okEnv okState goodOracle "Users"
      { is_success := true, status_code := 200, server_message := "OK",
        cursor := "c1", has_more_results := true, body := PyVal.pynone }
      20 none none none).1 =
      [RemoteCall.dataQuery "Users" (some (PyVal.dict [("page",
        PyVal.dict [("size", PyVal.int 20), ("after", PyVal.str "c1")])]))] := by
  refine ⟨?_, ?_⟩
  · exact ((c6_pagination okEnv okState
      { api_key := "test-key", db_url := none, kwargs := [] } goodOracle rfl "Users"
      { is_success := true, status_code := 200, server_message := "OK",
        cursor := "c1", has_more_results := false, body := PyVal.pynone }
      20 none none none).1 rfl).1
  · exact ((c6_pagination okEnv okState
      { api_key := "test-key", db_url := none, kwargs := [] } goodOracle rfl "Users"
      { is_success := true, status_code := 200, server_message := "OK",
        cursor := "c1", has_more_results := true, body := PyVal.pynone }
      20 none none none).2 rfl).1

/-- C7.  When no explicit api key is supplied (operations pass none), the
secrets store has no `XATA_API_KEY` entry, the environment has none, and
`_connect` stored none, the client factory raises `ConnectionRefusedError`
(a configuration error): no `XataClient` value exists on that branch, and an
operation such as `query` propagates the error with an empty remote-call
trace — no remote call is attempted. -/
theorem c7_missing_api_key (env : HostEnv) (st : ConnState)
    (h1 : lookupKey env.st_secrets "XATA_API_KEY" = none)
    (h2 : lookupKey env.os_environ "XATA_API_KEY" = none)
    (h3 : st.stored_api_key = none)
    (oracle : RemoteCall → ApiResponse) (table_name : String) (full_query : Option PyVal) :
    resolveApiKey env st none = Except.error (FacadeError.connectionRefused
      "No API key found. Please set the XATA_API_KEY environment variable or add it to the secrets manager.") ∧
    callClient env st none none st.client_kwargs = Except.error (FacadeError.connectionRefused
      "No API key found. Please set the XATA_API_KEY environment variable or add it to the secrets manager.") ∧
    query env st oracle table_name full_query =
      ([], Except.error (FacadeError.connectionRefused
        "No API key found. Please set the XATA_API_KEY environment variable or add it to the secrets manager.")) := by
  have hres : resolveApiKey env st none = Except.error (FacadeError.connectionRefused
      "No API key found. Please set the XATA_API_KEY environment variable or add it to the secrets manager.") := by
    simp [resolveApiKey, h1, h2, h3]
  have hcc : callClient env st none none st.client_kwargs = Except.error (FacadeError.connectionRefused
      "No API key found. Please set the XATA_API_KEY environment variable or add it to the secrets manager.") := by
    simp [callClient, hres]
  exact ⟨hres, hcc, by simp [query, hcc]⟩

/-- C7, witness: empty secrets store, empty environment, nothing stored. -/
theorem c7_witness :
    query { st_secrets := [], os_environ := [] } okState goodOracle "Users" none =
      ([], Except.error (FacadeError.connectionRefused
        "No API key found. Please set the XATA_API_KEY environment variable or add it to the secrets manager.")) := by
  exact (c7_missing_api_key { st_secrets := [], os_environ := [] } okState
    rfl rfl rfl goodOracle "Users" none).2.2

/-- C8.  A successful remote response is returned by the facade method as the
very response object, unmodified (`query` and `get` embedded; the other
forwarding methods repeat the identical return); and an unresolved `db_url`
is no error: the client is constructed without it. -/
theorem c8_identity_passthrough (env : HostEnv) (st : ConnState) (c : XataClient)
    (oracle : RemoteCall → ApiResponse)
    (h : callClient env st none none st.client_kwargs = Except.ok c)
    (table_name record_id : String) (full_query : Option PyVal)
    (columns : Option (List String)) (ak : String) :
    ((oracle (RemoteCall.dataQuery table_name full_query)).is_success = true →
      (query env st oracle table_name full_query).2 =
        Except.ok (oracle (RemoteCall.dataQuery table_name full_query))) ∧
    ((oracle (RemoteCall.recordsGet table_name record_id columns)).is_success = true →
      (XataConnection.get env st oracle table_name record_id columns).2 =
        Except.ok (oracle (RemoteCall.recordsGet table_name record_id columns))) ∧
    (∀ kwargs : List (String × String),
      resolveApiKey env st none = Except.ok ak →
      resolveDbUrl env st none = none →
      callClient env st none none kwargs =
        Except.ok { api_key := ak, db_url := none, kwargs := kwargs }) := by
  refine ⟨?_, ?_, ?_⟩
  · intro hs
    simp [query, h, checkResponse, hs]
  · intro hs
    simp [XataConnection.get, h, checkResponse, hs]
  · intro kwargs hak hdb
    simp [callClient, hak, hdb]

/-- C8, witness: the succeeding oracle's response is handed back unchanged,
and client construction succeeds with no db url anywhere. -/
theorem c8_witness :
    (query okEnv okState goodOracle "Users" none).2 =
      Except.ok (goodOracle (RemoteCall.dataQuery "Users" none)) ∧
    callClient okEnv okState none none [] =
      Except.ok { api_key := "test-key", db_url := none, kwargs := [] } := by
  have h := c8_identity_passthrough okEnv okState
    { api_key := "test-key", db_url := none, kwargs := [] } goodOracle rfl
    "Users" "r1" none none "test-key"
  exact ⟨h.1 rfl, h.2.2 [] rfl rfl⟩

/-- C9.  `transaction` forwards `{"operations": payload}` to the remote
transaction call when the payload does not contain the key `"operations"`,
and forwards the payload unchanged when it does; a list payload never
contains the key, so it is always wrapped. -/
theorem c9_transaction_wrap (env : HostEnv) (st : ConnState) (c : XataClient)
    (oracle : RemoteCall → ApiResponse)
    (h : callClient env st none none st.client_kwargs = Except.ok c)
    (payload : PyVal) (ops : List PyVal) :
    (payloadHasOperations payload = false →
      (transaction env st oracle payload).1 =
        [RemoteCall.recordsTransaction (PyVal.dict [("operations", payload)])]) ∧
    (payloadHasOperations payload = true →
      (transaction env st oracle payload).1 =
        [RemoteCall.recordsTransaction payload]) ∧
    payloadHasOperations (PyVal.list ops) = false := by
  refine ⟨?_, ?_, rfl⟩
  · intro hn
    simp [transaction, h, hn]
  · intro hy
    simp [transaction, h, hy]

/-- C9, witness: a payload without the key is wrapped, one with the key is
forwarded unchanged. -/
theorem c9_witness :
    (transaction okEnv okState goodOracle (PyVal.dict [("insert", PyVal.pynone)])).1 =
      [RemoteCall.recordsTransaction
        (PyVal.dict [("operations", PyVal.dict [("insert", PyVal.pynone)])])] ∧
    (transaction okEnv okState goodOracle
        (PyVal.dict [("operations", PyVal.list [])])).1 =
      [RemoteCall.recordsTransaction (PyVal.dict [("operations", PyVal.list [])])] := by
  refine ⟨?_, ?_⟩
  · exact (c9_transaction_wrap okEnv okState
      { api_key := "test-key", db_url := none, kwargs := [] } goodOracle rfl
      (PyVal.dict [("insert", PyVal.pynone)]) []).1 rfl
  · exact (c9_transaction_wrap okEnv okState
      { api_key := "test-key", db_url := none, kwargs := [] } goodOracle rfl
      (PyVal.dict [("operations", PyVal.list [])]) []).2.1 rfl

/-- Computation of revision v1.0.0's `_connect` at `table_names = None`: both
isinstance tests fail on None, so no prefetch happens and the state carries no
per-table attributes. -/
theorem xc_connect_none_eq (env : HostEnv) (oracle : RemoteCall → ApiResponse)
    (api_key db_url : Option String) (kwargs : List (String × String)) :
    xc_connect env oracle api_key db_url none kwargs =
      (match callClient env { client_kwargs := kwargs, stored_api_key := api_key,
                              stored_db_url := db_url } api_key db_url kwargs with
       | Except.error e => Except.error e
       | Except.ok _ =>
         Except.ok ({ client_kwargs := kwargs, table_names_field := none,
                      stored_api_key := api_key, stored_db_url := db_url,
                      table_attrs := [] }, [])) := by
  unfold xc_connect
  rcases hcc : callClient env ⟨kwargs, api_key, db_url⟩ api_key db_url kwargs with e | cl <;>
    simp [hcc, isinstanceList, isinstanceDict]

/-- C10.  A non-None `table_names` argument to revision v1.0.0's `_connect`
has no observable effect: the prefetch/alias branch is guarded by
`table_names is None`, so the run equals the run with `table_names = None`,
and on success no per-table attribute is set, no `get_schema` prefetch call
is issued, and the state holds exactly the client kwargs and the stored
secrets. -/
theorem c10_table_names_vacuous (env : HostEnv) (oracle : RemoteCall → ApiResponse)
    (api_key db_url : Option String) (kwargs : List (String × String))
    (tns : Option TableNames) (h : tns ≠ none) :
    xc_connect env oracle api_key db_url tns kwargs =
      xc_connect env oracle api_key db_url none kwargs ∧
    (∀ xst : XCState, ∀ calls : List RemoteCall,
      xc_connect env oracle api_key db_url tns kwargs = Except.ok (xst, calls) →
      xst.table_attrs = [] ∧ calls = [] ∧ xst.client_kwargs = kwargs ∧
      xst.stored_api_key = api_key ∧ xst.stored_db_url = db_url ∧
      xst.table_names_field = none) := by
  have heq : xc_connect env oracle api_key db_url tns kwargs =
      xc_connect env oracle api_key db_url none kwargs := by
    unfold xc_connect
    simp only [h, isinstanceList, isinstanceDict]
    rcases tns with _ | t
    · rfl
    · rcases t with l | d <;> simp [prefetchSchemas, prefetchAliases, iterListNames, iterDictNames]
  refine ⟨heq, ?_⟩
  intro xst calls hok
  rw [heq, xc_connect_none_eq] at hok
  rcases hcc : callClient env ⟨kwargs, api_key, db_url⟩ api_key db_url kwargs with e | cl
  · rw [hcc] at hok
    cases hok
  · rw [hcc] at hok
    simp only [Except.ok.injEq, Prod.mk.injEq] at hok
    obtain ⟨h1, h2⟩ := hok
    subst h2
    simp [← h1]

/-- C10, witness: a concrete list-valued and a concrete dict-valued
`table_names`. -/
theorem c10_witness :
    xc_connect okEnv goodOracle none none
        (some (TableNames.listNames ["Users"])) [] =
      xc_connect okEnv goodOracle none none none [] ∧
    xc_connect okEnv goodOracle none none
        (some (TableNames.dictNames [("Users", "u")])) [] =
      Except.ok ({ client_kwargs := [], table_names_field := none,
                   stored_api_key := none, stored_db_url := none,
                   table_attrs := [] }, []) := by
  refine ⟨?_, ?_⟩
  · exact (c10_table_names_vacuous okEnv goodOracle none none []
      (some (TableNames.listNames ["Users"])) (by simp)).1
  · have h := (c10_table_names_vacuous okEnv goodOracle none none []
      (some (TableNames.dictNames [("Users", "u")])) (by simp)).1
    rw [h]
    rfl
